import Mathlib

/-!
Verification of the workflow/session state machine of the SafeHands backend.

The definitions below are a shallow embedding of
`app/agents/simple_swiggy_agent.py` (class `SimpleSwiggyAgent`) and
`app/services/in_memory_state_manager.py` (class `InMemoryStateManager`).
Python dictionaries keyed by session id become functions
`String → Option _`; Python exceptions become `Except String _`; the
external LLM call (`AIService.generate_text`) is an opaque capability
modelled as an `Option String` parameter (`none` = the call raised).
Wall-clock timestamps (`datetime.now()`) are modelled as a `Nat`
parameter threaded into each turn.
-/

/-! ### Python string primitives -/

/-- Python's `needle in hay` prefix worker on character lists. -/
def isPrefixChars : List Char → List Char → Bool
  | [], _ => true
  | _ :: _, [] => false
  | a :: as, b :: bs => a == b && isPrefixChars as bs

/-- Python's substring test (`needle in hay`) on character lists. -/
def isInfixChars (needle : List Char) : List Char → Bool
  | [] => isPrefixChars needle []
  | a :: t => isPrefixChars needle (a :: t) || isInfixChars needle t

/-- Python's `needle in hay` membership test on strings. -/
def pyIn (needle hay : String) : Bool :=
  isInfixChars needle.data hay.data

/-- Python's `str.lower()` (ASCII range, which covers every keyword list in
the source). -/
def pyLower (s : String) : String :=
  String.mk (s.data.map Char.toLower)

/-- Whitespace characters removed by Python's `str.strip()`. -/
def pyIsSpace (c : Char) : Bool :=
  c == ' ' || c == '\t' || c == '\n' || c == '\r' || c == '\x0b' || c == '\x0c'

/-- Python's `str.strip()`. -/
def pyStrip (s : String) : String :=
  String.mk (((s.data.dropWhile pyIsSpace).reverse.dropWhile pyIsSpace).reverse)

/-- Python's list indexing `l[i]` for a possibly negative `int` index;
`none` models an `IndexError`. -/
def pyIndex (l : List String) (i : Int) : Option String :=
  if 0 ≤ i then l.get? i.toNat
  else if 0 ≤ (l.length : Int) + i then l.get? ((l.length : Int) + i).toNat
  else none

/-! ### Step catalog and classifier, from `SimpleSwiggyAgent` -/

/-- Field `self.swiggy_steps` of `SimpleSwiggyAgent.__init__`. -/
def swiggy_steps : List String :=
  [ "Open the Swiggy app on your phone"
  , "Search for the food you want to order"
  , "Select a restaurant from the results"
  , "Choose the items you want to order"
  , "Add items to your cart"
  , "Review your order and proceed to checkout"
  , "Enter your delivery address"
  , "Select payment method and place order" ]

/-- Keyword list of `_is_swiggy_request`. -/
def swiggy_keywords : List String :=
  ["swiggy", "order food", "order from swiggy", "food delivery", "swiggy order"]

/-- Method `_is_swiggy_request`: any task-trigger keyword occurs in the
lower-cased input. -/
def is_swiggy_request (user_input : String) : Bool :=
  swiggy_keywords.any (fun k => pyIn k (pyLower user_input))

/-- Keyword list of `_is_verification_response`. -/
def verification_responses : List String :=
  ["done", "next", "completed", "finished", "yes", "ok", "ready", "continue"]

/-- Method `_is_verification_response`: any confirmation token occurs in the
lower-cased, stripped input. -/
def is_verification_response (user_input : String) : Bool :=
  verification_responses.any (fun r => pyIn r (pyStrip (pyLower user_input)))

/-- Keyword list of `_is_interruption`. -/
def interruption_keywords : List String :=
  [ "how", "what", "where", "why", "when", "which", "can you", "could you"
  , "help", "explain", "show", "tell me", "i don\x27t understand", "confused"
  , "stuck", "problem", "error", "not working", "can\x27t find", "difficult" ]

/-- Method `_is_interruption`: a confirmation is never an interruption;
otherwise any interruption keyword occurring in the lower-cased input makes
it one. -/
def is_interruption (user_input : String) : Bool :=
  if is_verification_response user_input then false
  else interruption_keywords.any (fun k => pyIn k (pyLower user_input))

/-! ### Data model -/

/-- Value of the `workflow_steps` key of the state dictionary. Python
distinguishes a missing key (`dict.get` falls back to its default), a key
present with value `None` (so `len(...)` raises `TypeError`) and a list. -/
inductive StepsField where
  | absent
  | null
  | val (steps : List String)
deriving DecidableEq, Repr

/-- Workflow-state dictionary built in `_start_new_workflow` and mutated in
`_handle_step_verification`; `last_updated` is written by
`save_workflow_state`. The `workflow_context` bag is created empty and,
being never read nor written afterwards, is modelled as a key-value list. -/
structure WorkflowState where
  session_id : String
  user_input : String
  workflow_type : String
  workflow_steps : StepsField
  current_step_index : Int
  workflow_status : String
  waiting_for_verification : Bool
  workflow_context : List (String × String)
  interruption_handled : Bool
  last_updated : Nat
deriving DecidableEq, Repr

/-- Interruption dictionary built in `_handle_interruption`; `timestamp` and
`escalated` are written by `save_interruption`. -/
structure InterruptionRecord where
  type : String
  user_input : String
  workflow_type : String
  current_step_index : Int
  current_step : String
  total_steps : Nat
  workflow_status : String
  timestamp : Nat
  escalated : Bool
deriving DecidableEq, Repr

/-- Enumeration `ResponseType` from `app/models/schemas.py`. -/
inductive ResponseType where
  | instruction
  | highlight
  | verification
  | proactive
  | error
deriving DecidableEq, Repr

/-- Model `AssistantResponse` from `app/models/schemas.py` (the agent always
sets `audio_response`, `ui_element` and `next_step` to `None`, so only the
fields it populates are carried). -/
structure AssistantResponse where
  session_id : String
  response_type : ResponseType
  content : String
deriving DecidableEq, Repr

/-! ### The in-memory state manager (`InMemoryStateManager`) -/

/-- The two dictionaries of `InMemoryStateManager`: `self.workflow_states`
and `self.interruptions`, both keyed by session id. -/
structure Store where
  workflow_states : String → Option WorkflowState
  interruptions : String → Option InterruptionRecord

/-- Initial manager: both dictionaries empty. -/
def emptyStore : Store :=
  { workflow_states := fun _ => none, interruptions := fun _ => none }

/-- Method `save_workflow_state`: stamps `last_updated` and overwrites the
entry for the session; returns `True`. -/
def save_workflow_state (σ : Store) (sid : String) (st : WorkflowState)
    (now : Nat) : Store × Bool :=
  ({ σ with workflow_states := fun k =>
      if k = sid then some { st with last_updated := now }
      else σ.workflow_states k }, true)

/-- Method `load_workflow_state`: returns a copy of the stored state, or
`None`. -/
def load_workflow_state (σ : Store) (sid : String) : Option WorkflowState :=
  σ.workflow_states sid

/-- Method `delete_workflow_state`: removes the entry if present and reports
whether it existed. -/
def delete_workflow_state (σ : Store) (sid : String) : Store × Bool :=
  match σ.workflow_states sid with
  | some _ =>
      ({ σ with workflow_states := fun k =>
          if k = sid then none else σ.workflow_states k }, true)
  | none => (σ, false)

/-- Method `save_interruption`: stamps `timestamp`, forces
`escalated = False` and overwrites the entry for the session; returns
`True`. -/
def save_interruption (σ : Store) (sid : String) (rec : InterruptionRecord)
    (now : Nat) : Store × Bool :=
  ({ σ with interruptions := fun k =>
      if k = sid then some { rec with timestamp := now, escalated := false }
      else σ.interruptions k }, true)

/-- Method `get_interruption`: returns the stored record only when it exists
and is not escalated. -/
def get_interruption (σ : Store) (sid : String) : Option InterruptionRecord :=
  match σ.interruptions sid with
  | none => none
  | some rec => if rec.escalated then none else some rec

/-- Method `mark_interruption_escalated`: deletes the record if present and
reports whether it existed. -/
def mark_interruption_escalated (σ : Store) (sid : String) : Store × Bool :=
  match σ.interruptions sid with
  | some _ =>
      ({ σ with interruptions := fun k =>
          if k = sid then none else σ.interruptions k }, true)
  | none => (σ, false)

/-! ### The agent (`SimpleSwiggyAgent`) -/

/-- Reading of the `workflow_steps` key as both handlers do:
`state.get('workflow_steps', self.swiggy_steps)`. A missing key falls back
to the default catalog; the value `None` makes the subsequent `len` call
raise, modelled by `none`. -/
def getStepsField : StepsField → Option (List String)
  | .absent => some swiggy_steps
  | .null => none
  | .val l => some l

/-- Tail appended to every step instruction. -/
def step_prompt_suffix : String :=
  "\n\nLet me know when you\x27ve completed this step by saying \x27done\x27 or \x27next\x27."

/-- Instruction text `Step {n} of {total}: {step}` plus the standard tail. -/
def step_content (stepNumber : Int) (total : Nat) (step : String) : String :=
  "Step " ++ toString stepNumber ++ " of " ++ toString total ++ ": " ++ step
    ++ step_prompt_suffix

/-- Guidance reply of `_start_new_workflow` when the input is not a Swiggy
request. -/
def start_guidance_content : String :=
  "I can help you order food from Swiggy! Just say \x27I want to order food from Swiggy\x27 to get started."

/-- Completion reply of `_handle_step_verification`. -/
def completion_content : String :=
  "🎉 Excellent! You\x27ve completed all the steps successfully! Your Swiggy order should be on its way. Is there anything else I can help you with?"

/-- Default reply of `_handle_existing_workflow`. -/
def default_guidance_content : String :=
  "I\x27m here to help you with your Swiggy order. Say \x27done\x27 when you complete a step, or ask me any questions!"

/-- Templated fallback reply of `_handle_interruption` when the LLM call
fails. -/
def fallback_content (user_input : String) (idx : Int) (step : String) : String :=
  "I understand you have a question about: \x27" ++ user_input
    ++ "\x27\n\nYou\x27re currently on Step " ++ toString (idx + 1) ++ ": " ++ step
    ++ "\n\nI\x27m here to help! What would you like to know about this step?"

/-- Method `_get_error_response`. -/
def get_error_response (sid msg : String) : AssistantResponse :=
  { session_id := sid, response_type := .error,
    content := "I\x27m sorry, I encountered an error: " ++ msg ++ ". Please try again." }

/-- Method `_start_new_workflow`: non-Swiggy input gets generic guidance;
otherwise a fresh state at step 0 is saved and the step-1 instruction is
emitted (`self.swiggy_steps[0]` cannot fail on the non-empty literal, so
`getD` is exact). -/
def start_new_workflow (σ : Store) (sid user_input : String) (now : Nat) :
    Store × AssistantResponse :=
  if !is_swiggy_request user_input then
    (σ, { session_id := sid, response_type := .instruction,
          content := start_guidance_content })
  else
    let st : WorkflowState :=
      { session_id := sid
      , user_input := user_input
      , workflow_type := "swiggy_order_food"
      , workflow_steps := .val swiggy_steps
      , current_step_index := 0
      , workflow_status := "active"
      , waiting_for_verification := true
      , workflow_context := []
      , interruption_handled := false
      , last_updated := 0 }
    let σ1 := (save_workflow_state σ sid st now).1
    let current_step := (swiggy_steps.get? 0).getD ""
    (σ1, { session_id := sid, response_type := .instruction,
           content := step_content 1 swiggy_steps.length current_step })

/-- Method `_handle_step_verification`: advance `current_step_index` by one;
at or past the end, delete the state and emit the completion reply;
otherwise persist the advanced state and emit the next instruction. The
`Except.error` branches model the Python exceptions (`len(None)`,
`IndexError`) that propagate to `process_request`. -/
def handle_step_verification (σ : Store) (sid _user_input : String)
    (st : WorkflowState) (now : Nat) : Store × Except String AssistantResponse :=
  match getStepsField st.workflow_steps with
  | none => (σ, .error "object of type NoneType has no len()")
  | some workflow_steps =>
    let next_step_index := st.current_step_index + 1
    if (workflow_steps.length : Int) ≤ next_step_index then
      let σ1 := (delete_workflow_state σ sid).1
      (σ1, .ok { session_id := sid, response_type := .instruction,
                 content := completion_content })
    else
      match pyIndex workflow_steps next_step_index with
      | none => (σ, .error "list index out of range")
      | some current_step =>
        let st1 := { st with current_step_index := next_step_index
                           , workflow_status := "active"
                           , waiting_for_verification := true }
        let σ1 := (save_workflow_state σ sid st1 now).1
        (σ1, .ok { session_id := sid, response_type := .instruction,
                   content := step_content (next_step_index + 1)
                     workflow_steps.length current_step })

/-- Method `_handle_interruption`: record the interruption, then reply with
the stripped LLM text (`gen = some text`) or, when the LLM call raised
(`gen = none`), with the templated fallback. -/
def handle_interruption (σ : Store) (sid user_input : String)
    (st : WorkflowState) (gen : Option String) (now : Nat) :
    Store × Except String AssistantResponse :=
  match getStepsField st.workflow_steps with
  | none => (σ, .error "object of type NoneType has no len()")
  | some workflow_steps =>
    let current_step? :=
      if st.current_step_index < (workflow_steps.length : Int) then
        pyIndex workflow_steps st.current_step_index
      else some "Unknown"
    match current_step? with
    | none => (σ, .error "list index out of range")
    | some current_step =>
      let intr : InterruptionRecord :=
        { type := "workflow_interruption"
        , user_input := user_input
        , workflow_type := "swiggy_order_food"
        , current_step_index := st.current_step_index
        , current_step := current_step
        , total_steps := workflow_steps.length
        , workflow_status := st.workflow_status
        , timestamp := 0
        , escalated := false }
      let σ1 := (save_interruption σ sid intr now).1
      let response :=
        match gen with
        | some text => pyStrip text
        | none => fallback_content user_input st.current_step_index current_step
      (σ1, .ok { session_id := sid, response_type := .instruction,
                 content := response })

/-- Method `_handle_existing_workflow`: dispatch in source order —
confirmation, then interruption, then new-workflow request, then the
default reply. -/
def handle_existing_workflow (σ : Store) (sid user_input : String)
    (st : WorkflowState) (gen : Option String) (now : Nat) :
    Store × Except String AssistantResponse :=
  if is_verification_response user_input then
    handle_step_verification σ sid user_input st now
  else if is_interruption user_input then
    handle_interruption σ sid user_input st gen now
  else if is_swiggy_request user_input then
    let p := start_new_workflow σ sid user_input now
    (p.1, .ok p.2)
  else
    (σ, .ok { session_id := sid, response_type := .instruction,
              content := default_guidance_content })

/-- Method `process_request`: load the state and dispatch; any exception
raised inside a handler is caught here and turned into the error reply. -/
def process_request (σ : Store) (sid user_input : String)
    (gen : Option String) (now : Nat) : Store × AssistantResponse :=
  match load_workflow_state σ sid with
  | some st =>
      match handle_existing_workflow σ sid user_input st gen now with
      | (σ1, .ok resp) => (σ1, resp)
      | (σ1, .error msg) => (σ1, get_error_response sid msg)
  | none => start_new_workflow σ sid user_input now

/-- Stores reachable through the operations the backend exposes: agent
turns (`process_request`) and the management endpoints of `app/main.py`
that mutate state (`clear_workflow_state` via `delete_workflow_state`, and
`mark_interruption_escalated`). -/
inductive Reachable : Store → Prop where
  | empty : Reachable emptyStore
  | turn (σ : Store) (sid user_input : String) (gen : Option String) (now : Nat) :
      Reachable σ → Reachable (process_request σ sid user_input gen now).1
  | clear (σ : Store) (sid : String) :
      Reachable σ → Reachable (delete_workflow_state σ sid).1
  | escalate (σ : Store) (sid : String) :
      Reachable σ → Reachable (mark_interruption_escalated σ sid).1

example : is_verification_response "ok, how do I do this?" = true := by decide
example : is_interruption "ok, how do I do this?" = false := by decide
example : is_interruption "how do I search for a restaurant?" = true := by decide
example : is_swiggy_request "help me order food" = true := by decide
example : is_verification_response "help me order food" = false := by decide
example : is_interruption "help me order food" = true := by decide

/-! ### Concrete fixtures used by the witnesses -/

/-- An in-flight workflow state at step `i`, exactly as `_start_new_workflow`
creates it and `_handle_step_verification` advances it. -/
def demo_state (i : Int) : WorkflowState :=
  { session_id := "s1"
  , user_input := "I want to order food"
  , workflow_type := "swiggy_order_food"
  , workflow_steps := .val swiggy_steps
  , current_step_index := i
  , workflow_status := "active"
  , waiting_for_verification := true
  , workflow_context := []
  , interruption_handled := false
  , last_updated := 0 }

/-- A store holding `demo_state i` for session `s1` and no interruption. -/
def demo_store (i : Int) : Store :=
  { workflow_states := fun k => if k = "s1" then some (demo_state i) else none
  , interruptions := fun _ => none }

/-- A pending interruption record for the witnesses. -/
def demo_interruption : InterruptionRecord :=
  { type := "workflow_interruption"
  , user_input := "how do I search for a restaurant?"
  , workflow_type := "swiggy_order_food"
  , current_step_index := 1
  , current_step := "Search for the food you want to order"
  , total_steps := 8
  , workflow_status := "active"
  , timestamp := 4
  , escalated := false }

/-- A store holding only `demo_interruption` for session `s1`. -/
def demo_interruption_store : Store :=
  { workflow_states := fun _ => none
  , interruptions := fun k => if k = "s1" then some demo_interruption else none }

/-- A stored state whose `workflow_steps` key is missing (corrupted on
load). -/
def corrupt_state : WorkflowState :=
  { demo_state 1 with workflow_steps := StepsField.absent }

/-- A store holding `corrupt_state` for session `s1`. -/
def corrupt_store : Store :=
  { workflow_states := fun k => if k = "s1" then some corrupt_state else none
  , interruptions := fun _ => none }

/-! ### Invariant of stored workflow states -/

/-- Bounds invariant of one stored workflow state: a genuine steps list and
`0 ≤ current_step_index < len(steps)`. -/
def state_in_bounds (st : WorkflowState) : Prop :=
  0 ≤ st.current_step_index ∧
  ∃ steps, st.workflow_steps = StepsField.val steps ∧
    st.current_step_index < (steps.length : Int)

/-- Every state held in the workflow dictionary satisfies the bounds
invariant. -/
def store_invariant (σ : Store) : Prop :=
  ∀ sid st, σ.workflow_states sid = some st → state_in_bounds st

example :
    pyIn "Step 1 of 8"
      (process_request emptyStore "s1" "I want to order food" none 0).2.content
      = true := by decide

example :
    (process_request emptyStore "s1" "hello" none 0).2.content
      = start_guidance_content := by decide

/-! ### Helper lemmas -/

theorem isPrefixChars_self_append (n b : List Char) :
    isPrefixChars n (n ++ b) = true := by
  induction n with
  | nil => rfl
  | cons a as ih => simp [isPrefixChars, ih]

theorem isInfixChars_of_isPrefixChars {n h : List Char}
    (hp : isPrefixChars n h = true) : isInfixChars n h = true := by
  cases h with
  | nil => simpa [isInfixChars] using hp
  | cons a t => simp [isInfixChars, hp]

theorem isInfixChars_append_left {n h : List Char} (a : List Char)
    (hi : isInfixChars n h = true) : isInfixChars n (a ++ h) = true := by
  induction a with
  | nil => simpa using hi
  | cons x xs ih => simp [isInfixChars, ih]

/-- Membership of the needle in any haystack whose character data sandwiches
the needle's data. -/
theorem pyIn_of_data_eq (k s : String) (x y : List Char)
    (h : s.data = x ++ (k.data ++ y)) : pyIn k s = true := by
  unfold pyIn
  rw [h]
  exact isInfixChars_append_left x
    (isInfixChars_of_isPrefixChars (isPrefixChars_self_append k.data y))

theorem step_content_data (n : Int) (total : Nat) (step : String) :
    (step_content n total step).data =
      ("Step " ++ toString n ++ " of " ++ toString total ++ ": ").data
        ++ (step.data ++ step_prompt_suffix.data) := by
  simp [step_content, String.data_append]

/-- The step text always occurs in the emitted instruction. -/
theorem pyIn_step_content (n : Int) (total : Nat) (step : String) :
    pyIn step (step_content n total step) = true :=
  pyIn_of_data_eq step _ _ _ (step_content_data n total step)

theorem fallback_content_data (u : String) (idx : Int) (step : String) :
    (fallback_content u idx step).data =
      ("I understand you have a question about: \x27" ++ u
        ++ "\x27\n\nYou\x27re currently on Step " ++ toString (idx + 1) ++ ": ").data
        ++ (step.data
              ++ "\n\nI\x27m here to help! What would you like to know about this step?".data) := by
  simp [fallback_content, String.data_append]

/-- The step text always occurs in the templated fallback reply. -/
theorem pyIn_fallback_content (u : String) (idx : Int) (step : String) :
    pyIn step (fallback_content u idx step) = true :=
  pyIn_of_data_eq step _ _ _ (fallback_content_data u idx step)

theorem append_ne_empty_left (s t : String) (hs : s ≠ "") : s ++ t ≠ "" := by
  intro h
  apply hs
  apply String.ext
  have hd := congrArg String.data h
  rw [String.data_append] at hd
  rcases List.append_eq_nil.mp hd with ⟨h1, _⟩
  simpa using h1

/-- The templated fallback reply is never the empty string. -/
theorem fallback_content_ne_empty (u : String) (idx : Int) (step : String) :
    fallback_content u idx step ≠ "" := by
  unfold fallback_content
  repeat apply append_ne_empty_left
  decide

/-- An interruption is never a confirmation: `_is_interruption` returns
`False` outright on confirmations. -/
theorem not_verification_of_interruption {u : String}
    (h : is_interruption u = true) : is_verification_response u = false := by
  by_contra hv
  simp only [is_interruption, Bool.not_eq_false] at h hv
  rw [if_pos hv] at h
  exact Bool.false_ne_true h

/-- Nonnegative indices behave like `List.get?`. -/
theorem pyIndex_nonneg (l : List String) (i : Int) (h : 0 ≤ i) :
    pyIndex l i = l.get? i.toNat := by
  simp [pyIndex, h]

/-- In-range nonnegative indices always hit an element. -/
theorem pyIndex_isSome (l : List String) (i : Int) (h0 : 0 ≤ i)
    (hlt : i < (l.length : Int)) : ∃ s, pyIndex l i = some s := by
  rw [pyIndex_nonneg l i h0]
  have hlen : i.toNat < l.length := by omega
  exact ⟨l.get ⟨i.toNat, hlen⟩, List.get?_eq_get hlen⟩

theorem save_workflow_state_lookup (σ : Store) (sid : String)
    (st : WorkflowState) (now : Nat) (k : String) :
    (save_workflow_state σ sid st now).1.workflow_states k
      = if k = sid then some { st with last_updated := now }
        else σ.workflow_states k := rfl

theorem delete_workflow_state_invariant (σ : Store) (sid : String)
    (hσ : store_invariant σ) :
    store_invariant (delete_workflow_state σ sid).1 := by
  intro sid' st' h
  unfold delete_workflow_state at h
  cases hm : σ.workflow_states sid with
  | none => rw [hm] at h; exact hσ _ _ h
  | some st =>
      rw [hm] at h
      simp only at h
      by_cases he : sid' = sid
      · rw [if_pos he] at h; exact absurd h (by simp)
      · rw [if_neg he] at h; exact hσ _ _ h

theorem mark_interruption_escalated_workflow_states (σ : Store) (sid : String) :
    (mark_interruption_escalated σ sid).1.workflow_states
      = σ.workflow_states := by
  unfold mark_interruption_escalated
  cases σ.interruptions sid <;> rfl

theorem start_new_workflow_invariant (σ : Store) (sid u : String) (now : Nat)
    (hσ : store_invariant σ) :
    store_invariant (start_new_workflow σ sid u now).1 := by
  intro sid' st' h
  cases hc : is_swiggy_request u with
  | false =>
      simp only [start_new_workflow, hc, Bool.not_false, if_true] at h
      exact hσ _ _ h
  | true =>
      simp only [start_new_workflow, hc, Bool.not_true, Bool.false_eq_true,
        if_false] at h
      rw [save_workflow_state_lookup] at h
      by_cases he : sid' = sid
      · rw [if_pos he] at h
        injection h with h
        subst h
        exact ⟨by simp, swiggy_steps, by simp, by simp [swiggy_steps]⟩
      · rw [if_neg he] at h; exact hσ _ _ h

theorem handle_step_verification_invariant (σ : Store) (sid u : String)
    (st : WorkflowState) (now : Nat) (hσ : store_invariant σ)
    (hst : state_in_bounds st) :
    store_invariant (handle_step_verification σ sid u st now).1 := by
  obtain ⟨h0, steps, hsteps, hlt⟩ := hst
  unfold handle_step_verification
  rw [hsteps]
  simp only [getStepsField]
  by_cases hle : (steps.length : Int) ≤ st.current_step_index + 1
  · rw [if_pos hle]
    exact delete_workflow_state_invariant σ sid hσ
  · rw [if_neg hle]
    obtain ⟨s, hs⟩ :=
      pyIndex_isSome steps (st.current_step_index + 1) (by omega) (by omega)
    rw [hs]
    intro sid' st' h
    simp only at h
    rw [save_workflow_state_lookup] at h
    by_cases he : sid' = sid
    · rw [if_pos he] at h
      injection h with h
      subst h
      exact ⟨by simp; omega, steps, by simp [hsteps], by simp; omega⟩
    · rw [if_neg he] at h; exact hσ _ _ h

theorem handle_interruption_workflow_states (σ : Store) (sid u : String)
    (st : WorkflowState) (gen : Option String) (now : Nat) :
    (handle_interruption σ sid u st gen now).1.workflow_states
      = σ.workflow_states := by
  unfold handle_interruption
  cases hm : getStepsField st.workflow_steps with
  | none => rfl
  | some steps =>
      by_cases hc : st.current_step_index < (steps.length : Int)
      · cases hpi : pyIndex steps st.current_step_index with
        | none => simp [hc, hpi]
        | some s => cases gen <;> simp [hc, hpi, save_interruption]
      · cases gen <;> simp [hc, save_interruption]

theorem handle_existing_workflow_invariant (σ : Store) (sid u : String)
    (st : WorkflowState) (gen : Option String) (now : Nat)
    (hσ : store_invariant σ) (hst : state_in_bounds st) :
    store_invariant (handle_existing_workflow σ sid u st gen now).1 := by
  unfold handle_existing_workflow
  cases hv : is_verification_response u with
  | true =>
      simp only [hv, if_true]
      exact handle_step_verification_invariant σ sid u st now hσ hst
  | false =>
      simp only [hv, Bool.false_eq_true, if_false]
      cases hi : is_interruption u with
      | true =>
          simp only [hi, if_true]
          intro sid' st' h
          rw [handle_interruption_workflow_states] at h
          exact hσ _ _ h
      | false =>
          simp only [hi, Bool.false_eq_true, if_false]
          cases hw : is_swiggy_request u with
          | true =>
              simp only [hw, if_true]
              exact start_new_workflow_invariant σ sid u now hσ
          | false =>
              simp only [hw, Bool.false_eq_true, if_false]
              exact hσ

theorem process_request_invariant (σ : Store) (sid u : String)
    (gen : Option String) (now : Nat) (hσ : store_invariant σ) :
    store_invariant (process_request σ sid u gen now).1 := by
  unfold process_request
  cases hld : load_workflow_state σ sid with
  | none =>
      simp only
      exact start_new_workflow_invariant σ sid u now hσ
  | some st =>
      have hst := hσ sid st hld
      have hh := handle_existing_workflow_invariant σ sid u st gen now hσ hst
      rcases hhe : handle_existing_workflow σ sid u st gen now with ⟨σ1, r⟩
      rw [hhe] at hh
      simp only
      rw [hhe]
      cases r <;> simpa using hh

/-! ### Claim theorems -/

/-- C1: any input that matches a confirmation token — even one that also
contains a digression marker — is never classified as a digression
(`_is_interruption` returns `False` on it), and with a workflow state
present the dispatcher handles it through `_handle_step_verification`,
which runs before the interruption check. -/
theorem confirmation_priority_over_digression (user_input : String)
    (hconf : is_verification_response user_input = true)
    (_hmark : interruption_keywords.any (fun k => pyIn k (pyLower user_input)) = true) :
    is_interruption user_input = false ∧
    ∀ (σ : Store) (sid : String) (st : WorkflowState) (gen : Option String) (now : Nat),
      load_workflow_state σ sid = some st →
      handle_existing_workflow σ sid user_input st gen now
        = handle_step_verification σ sid user_input st now := by
  refine ⟨by simp [is_interruption, hconf], ?_⟩
  intro σ sid st gen now _
  simp [handle_existing_workflow, hconf]

/-- Witness for C1 at the spec's own example, "ok, how do I do this?",
which contains the confirmation token "ok" and the digression markers "how"
and "what". -/
theorem confirmation_priority_over_digression_witness :
    is_verification_response "ok, how do I do this?" = true ∧
    interruption_keywords.any
      (fun k => pyIn k (pyLower "ok, how do I do this?")) = true ∧
    is_interruption "ok, how do I do this?" = false ∧
    handle_existing_workflow (demo_store 1) "s1" "ok, how do I do this?"
        (demo_state 1) none 7
      = handle_step_verification (demo_store 1) "s1" "ok, how do I do this?"
          (demo_state 1) 7 := by
  refine ⟨by decide, by decide, ?_, ?_⟩
  · exact (confirmation_priority_over_digression _ (by decide) (by decide)).1
  · exact (confirmation_priority_over_digression _ (by decide) (by decide)).2
      (demo_store 1) "s1" (demo_state 1) none 7 (by decide)

/-- C2: in an active workflow at step `i` with `i+1 < len(steps)`, a
confirmation advances the persisted `current_step_index` to exactly `i+1`
and the reply is the instruction of step `i+1`, as a non-error response. -/
theorem confirmation_advances_one_step
    (σ : Store) (sid user_input : String) (st : WorkflowState)
    (steps : List String) (stepText : String) (gen : Option String) (now : Nat)
    (hload : load_workflow_state σ sid = some st)
    (hconf : is_verification_response user_input = true)
    (hsteps : st.workflow_steps = .val steps)
    (_hstatus : st.workflow_status = "active")
    (h0 : 0 ≤ st.current_step_index)
    (hlt : st.current_step_index + 1 < (steps.length : Int))
    (hstep : steps.get? (st.current_step_index + 1).toNat = some stepText) :
    (process_request σ sid user_input gen now).1.workflow_states sid
      = some { st with current_step_index := st.current_step_index + 1
                     , workflow_status := "active"
                     , waiting_for_verification := true
                     , last_updated := now } ∧
    pyIn stepText (process_request σ sid user_input gen now).2.content = true ∧
    (process_request σ sid user_input gen now).2.response_type
      = ResponseType.instruction := by
  have hpy : pyIndex steps (st.current_step_index + 1) = some stepText := by
    rw [pyIndex_nonneg steps _ (by omega)]; exact hstep
  have hnotle : ¬ ((steps.length : Int) ≤ st.current_step_index + 1) := by omega
  have hpr : process_request σ sid user_input gen now
      = ((save_workflow_state σ sid
            { st with current_step_index := st.current_step_index + 1
                    , workflow_status := "active"
                    , waiting_for_verification := true } now).1,
         { session_id := sid, response_type := .instruction,
           content := step_content (st.current_step_index + 1 + 1)
             steps.length stepText }) := by
    simp only [process_request, hload, handle_existing_workflow, hconf,
      if_true, handle_step_verification, hsteps, getStepsField]
    rw [if_neg hnotle, hpy]
  rw [hpr]
  refine ⟨?_, pyIn_step_content _ _ _, rfl⟩
  simp [save_workflow_state]

/-- Witness for C2: session at step 1, input "done", advancing to step 2 and
announcing "Select a restaurant from the results". -/
theorem confirmation_advances_one_step_witness :
    (process_request (demo_store 1) "s1" "done" none 5).1.workflow_states "s1"
      = some { demo_state 1 with current_step_index := 2
                               , workflow_status := "active"
                               , waiting_for_verification := true
                               , last_updated := 5 } ∧
    pyIn "Select a restaurant from the results"
      (process_request (demo_store 1) "s1" "done" none 5).2.content = true ∧
    (process_request (demo_store 1) "s1" "done" none 5).2.response_type
      = ResponseType.instruction := by
  have h := confirmation_advances_one_step (demo_store 1) "s1" "done"
    (demo_state 1) swiggy_steps "Select a restaurant from the results" none 5
    (by decide) (by decide) (by decide) (by decide) (by decide) (by decide)
    (by decide)
  exact h

/-- C3: in an active workflow at the last step (`i+1 = len(steps)`), a
confirmation deletes the stored workflow state in the same turn — a
subsequent `load_workflow_state` returns absent — and the reply is the
completion message, as a non-error response. -/
theorem last_confirmation_completes_and_deletes
    (σ : Store) (sid user_input : String) (st : WorkflowState)
    (steps : List String) (gen : Option String) (now : Nat)
    (hload : load_workflow_state σ sid = some st)
    (hconf : is_verification_response user_input = true)
    (hsteps : st.workflow_steps = .val steps)
    (_hstatus : st.workflow_status = "active")
    (hlast : st.current_step_index + 1 = (steps.length : Int)) :
    load_workflow_state (process_request σ sid user_input gen now).1 sid = none ∧
    (process_request σ sid user_input gen now).2.content = completion_content ∧
    (process_request σ sid user_input gen now).2.response_type
      = ResponseType.instruction := by
  have hle : (steps.length : Int) ≤ st.current_step_index + 1 := le_of_eq hlast.symm
  have hpr : process_request σ sid user_input gen now
      = ((delete_workflow_state σ sid).1,
         { session_id := sid, response_type := .instruction,
           content := completion_content }) := by
    simp only [process_request, hload, handle_existing_workflow, hconf,
      if_true, handle_step_verification, hsteps, getStepsField]
    rw [if_pos hle]
  rw [hpr]
  refine ⟨?_, rfl, rfl⟩
  unfold load_workflow_state at hload ⊢
  simp [delete_workflow_state, hload]

/-- Witness for C3: session at the last step (index 7 of 8), input "done",
state deleted and completion reply returned. -/
theorem last_confirmation_completes_and_deletes_witness :
    load_workflow_state
      (process_request (demo_store 7) "s1" "done" none 6).1 "s1" = none ∧
    (process_request (demo_store 7) "s1" "done" none 6).2.content
      = completion_content ∧
    (process_request (demo_store 7) "s1" "done" none 6).2.response_type
      = ResponseType.instruction := by
  exact last_confirmation_completes_and_deletes (demo_store 7) "s1" "done"
    (demo_state 7) swiggy_steps none 6 (by decide) (by decide) (by decide)
    (by decide) (by decide)

/-- C4 counterexample: "help me order food" is not a confirmation, contains
the task trigger "order food" and the help marker "help"; with a workflow
active at step 1 the turn does NOT restart the workflow at step 0 — the
dispatcher checks `_is_interruption` before `_is_swiggy_request`, records an
interruption at step 1 and leaves the workflow state untouched. -/
theorem new_task_priority_counterexample :
    is_verification_response "help me order food" = false ∧
    is_swiggy_request "help me order food" = true ∧
    is_interruption "help me order food" = true ∧
    (process_request (demo_store 1) "s1" "help me order food" none 9).1.workflow_states "s1"
      = some (demo_state 1) ∧
    ((process_request (demo_store 1) "s1" "help me order food" none 9).1.interruptions "s1").isSome
      = true := by
  refine ⟨by decide, by decide, by decide, by decide, by decide⟩

/-- C4 amended: an input that is not a confirmation but contains both a
task-trigger phrase and a digression marker, processed while a workflow is
active, is classified as a digression — `_is_interruption` is evaluated
before `_is_swiggy_request`, and the new-task check applies only to inputs
that failed both the confirmation and the digression checks. -/
theorem digression_priority_over_new_task (user_input : String)
    (hnc : is_verification_response user_input = false)
    (_hsw : is_swiggy_request user_input = true)
    (hmark : interruption_keywords.any (fun k => pyIn k (pyLower user_input)) = true) :
    is_interruption user_input = true ∧
    ∀ (σ : Store) (sid : String) (st : WorkflowState) (gen : Option String) (now : Nat),
      load_workflow_state σ sid = some st →
      handle_existing_workflow σ sid user_input st gen now
        = handle_interruption σ sid user_input st gen now := by
  have hint : is_interruption user_input = true := by
    simp [is_interruption, hnc, hmark]
  refine ⟨hint, ?_⟩
  intro σ sid st gen now _
  simp [handle_existing_workflow, hnc, hint]

/-- Witness for C4's amended theorem at the claim's own example
"help me order food". -/
theorem digression_priority_over_new_task_witness :
    is_verification_response "help me order food" = false ∧
    is_swiggy_request "help me order food" = true ∧
    is_interruption "help me order food" = true ∧
    handle_existing_workflow (demo_store 1) "s1" "help me order food"
        (demo_state 1) none 9
      = handle_interruption (demo_store 1) "s1" "help me order food"
          (demo_state 1) none 9 := by
  refine ⟨by decide, by decide, ?_, ?_⟩
  · exact (digression_priority_over_new_task _ (by decide) (by decide) (by decide)).1
  · exact (digression_priority_over_new_task _ (by decide) (by decide) (by decide)).2
      (demo_store 1) "s1" (demo_state 1) none 9 (by decide)

/-- C5: a digression processed while a workflow is active writes an
interruption record capturing the user text and the step index, leaves the
whole workflow-state dictionary untouched (every field of every stored
state, timestamps included), and replies with non-empty, non-error content.
The LLM output, when the call succeeds, is assumed to strip to a non-empty
string (`hgen`); on failure the non-empty templated fallback is used. -/
theorem digression_preserves_state_and_records
    (σ : Store) (sid user_input : String) (st : WorkflowState)
    (steps : List String) (stepText : String) (gen : Option String) (now : Nat)
    (hload : load_workflow_state σ sid = some st)
    (hint : is_interruption user_input = true)
    (hsteps : st.workflow_steps = .val steps)
    (hlt : st.current_step_index < (steps.length : Int))
    (hstep : pyIndex steps st.current_step_index = some stepText)
    (hgen : ∀ t, gen = some t → pyStrip t ≠ "") :
    (process_request σ sid user_input gen now).1.workflow_states
      = σ.workflow_states ∧
    (process_request σ sid user_input gen now).1.interruptions sid
      = some { type := "workflow_interruption"
             , user_input := user_input
             , workflow_type := "swiggy_order_food"
             , current_step_index := st.current_step_index
             , current_step := stepText
             , total_steps := steps.length
             , workflow_status := st.workflow_status
             , timestamp := now
             , escalated := false } ∧
    (process_request σ sid user_input gen now).2.content ≠ "" ∧
    (process_request σ sid user_input gen now).2.response_type
      = ResponseType.instruction := by
  have hnc : is_verification_response user_input = false :=
    not_verification_of_interruption hint
  have hpr : process_request σ sid user_input gen now
      = ({ σ with interruptions := fun k =>
            if k = sid then
              some { type := "workflow_interruption"
                   , user_input := user_input
                   , workflow_type := "swiggy_order_food"
                   , current_step_index := st.current_step_index
                   , current_step := stepText
                   , total_steps := steps.length
                   , workflow_status := st.workflow_status
                   , timestamp := now
                   , escalated := false }
            else σ.interruptions k },
         { session_id := sid, response_type := .instruction,
           content := match gen with
             | some t => pyStrip t
             | none => fallback_content user_input st.current_step_index stepText }) := by
    simp only [process_request, hload, handle_existing_workflow, hnc,
      Bool.false_eq_true, if_false, hint, if_true, handle_interruption,
      hsteps, getStepsField, save_interruption]
    rw [if_pos hlt, hstep]
    cases gen <;> rfl
  rw [hpr]
  refine ⟨rfl, by simp, ?_, rfl⟩
  cases gen with
  | none => exact fallback_content_ne_empty _ _ _
  | some t => exact hgen t rfl

/-- Witness for C5 at Scenario C of the spec: step 1, input
"how do I search for a restaurant?", with an LLM reply that strips to a
non-empty string. -/
theorem digression_preserves_state_and_records_witness :
    (process_request (demo_store 1) "s1" "how do I search for a restaurant?"
        (some " Type the dish name into the search bar. ") 4).1.workflow_states
      = (demo_store 1).workflow_states ∧
    (process_request (demo_store 1) "s1" "how do I search for a restaurant?"
        (some " Type the dish name into the search bar. ") 4).1.interruptions "s1"
      = some demo_interruption ∧
    (process_request (demo_store 1) "s1" "how do I search for a restaurant?"
        (some " Type the dish name into the search bar. ") 4).2.content ≠ "" ∧
    (process_request (demo_store 1) "s1" "how do I search for a restaurant?"
        (some " Type the dish name into the search bar. ") 4).2.response_type
      = ResponseType.instruction := by
  have h := digression_preserves_state_and_records (demo_store 1) "s1"
    "how do I search for a restaurant?" (demo_state 1) swiggy_steps
    "Search for the food you want to order"
    (some " Type the dish name into the search bar. ") 4
    (by decide) (by decide) (by decide) (by decide) (by decide)
    (by intro t ht; cases ht; decide)
  exact ⟨h.1, by rw [h.2.1]; decide, h.2.2.1, h.2.2.2⟩

/-- C7: when the LLM call fails during a digression (`gen = none`), the turn
still completes: the reply is exactly the deterministic templated fallback,
it cites the current step's instruction, and its kind is `instruction`, not
`error`. -/
theorem generation_failure_falls_back
    (σ : Store) (sid user_input : String) (st : WorkflowState)
    (steps : List String) (stepText : String) (now : Nat)
    (hload : load_workflow_state σ sid = some st)
    (hint : is_interruption user_input = true)
    (hsteps : st.workflow_steps = .val steps)
    (hlt : st.current_step_index < (steps.length : Int))
    (hstep : pyIndex steps st.current_step_index = some stepText) :
    (process_request σ sid user_input none now).2
      = { session_id := sid, response_type := .instruction,
          content := fallback_content user_input st.current_step_index stepText } ∧
    pyIn stepText (process_request σ sid user_input none now).2.content = true := by
  have h := digression_preserves_state_and_records σ sid user_input st steps
    stepText none now hload hint hsteps hlt hstep (by intro t ht; cases ht)
  have hnc : is_verification_response user_input = false :=
    not_verification_of_interruption hint
  have hpr : (process_request σ sid user_input none now).2
      = { session_id := sid, response_type := .instruction,
          content := fallback_content user_input st.current_step_index stepText } := by
    simp only [process_request, hload, handle_existing_workflow, hnc,
      Bool.false_eq_true, if_false, hint, if_true, handle_interruption,
      hsteps, getStepsField, save_interruption]
    rw [if_pos hlt, hstep]
  exact ⟨hpr, by rw [hpr]; exact pyIn_fallback_content _ _ _⟩

/-- Witness for C7: step 1, question input, failed LLM call; the reply is
the templated fallback citing step 2's instruction. -/
theorem generation_failure_falls_back_witness :
    (process_request (demo_store 1) "s1" "how do I search for a restaurant?"
        none 4).2
      = { session_id := "s1", response_type := .instruction,
          content := fallback_content "how do I search for a restaurant?" 1
            "Search for the food you want to order" } ∧
    pyIn "Search for the food you want to order"
      (process_request (demo_store 1) "s1" "how do I search for a restaurant?"
        none 4).2.content = true := by
  exact generation_failure_falls_back (demo_store 1) "s1"
    "how do I search for a restaurant?" (demo_state 1) swiggy_steps
    "Search for the food you want to order" 4
    (by decide) (by decide) (by decide) (by decide) (by decide)

/-- C6: with a pending (non-escalated) interruption stored, the first
`mark_interruption_escalated` returns `True` and removes the record, a read
afterwards returns absent, and a second consecutive call returns `False`. -/
theorem acknowledge_consume_once (σ : Store) (sid : String)
    (intr : InterruptionRecord)
    (hpend : get_interruption σ sid = some intr) :
    (mark_interruption_escalated σ sid).2 = true ∧
    (mark_interruption_escalated σ sid).1.interruptions sid = none ∧
    get_interruption (mark_interruption_escalated σ sid).1 sid = none ∧
    (mark_interruption_escalated (mark_interruption_escalated σ sid).1 sid).2 = false := by
  unfold get_interruption at hpend
  cases hmem : σ.interruptions sid with
  | none => rw [hmem] at hpend; exact absurd hpend (by simp)
  | some r =>
      simp [mark_interruption_escalated, get_interruption, hmem]

/-- Witness for C6 on a concrete store holding one pending interruption. -/
theorem acknowledge_consume_once_witness :
    get_interruption demo_interruption_store "s1" = some demo_interruption ∧
    (mark_interruption_escalated demo_interruption_store "s1").2 = true ∧
    (mark_interruption_escalated demo_interruption_store "s1").1.interruptions "s1" = none ∧
    get_interruption (mark_interruption_escalated demo_interruption_store "s1").1 "s1" = none ∧
    (mark_interruption_escalated
        (mark_interruption_escalated demo_interruption_store "s1").1 "s1").2 = false := by
  have h := acknowledge_consume_once demo_interruption_store "s1" demo_interruption (by decide)
  exact ⟨by decide, h.1, h.2.1, h.2.2.1, h.2.2.2⟩

/-- C8 counterexample: a stored state whose `workflow_steps` key is missing
is NOT treated as if no workflow existed. On input "done" the turn with the
corrupt state replies differently from the turn on a session with no state,
and instead of discarding the corrupt record the agent advances it (the
missing key is silently replaced by `dict.get`'s default catalog). -/
theorem corrupt_steps_treated_as_none_counterexample :
    (process_request corrupt_store "s1" "done" none 3).2.content
      ≠ (process_request emptyStore "s1" "done" none 3).2.content ∧
    (process_request corrupt_store "s1" "done" none 3).1.workflow_states "s1"
      = some { corrupt_state with current_step_index := 2, last_updated := 3 } := by
  exact ⟨by decide, by decide⟩

/-- C8 amended: a stored state with a missing `workflow_steps` key is not
discarded — `_handle_step_verification` substitutes the agent's default
catalog (`self.swiggy_steps`) and the workflow continues at the stored
index: a confirmation advances the persisted index by one and the turn
returns a normal instruction reply (no crash). -/
theorem missing_steps_fall_back_to_catalog
    (σ : Store) (sid user_input : String) (st : WorkflowState)
    (stepText : String) (gen : Option String) (now : Nat)
    (hload : load_workflow_state σ sid = some st)
    (hconf : is_verification_response user_input = true)
    (habsent : st.workflow_steps = StepsField.absent)
    (h0 : 0 ≤ st.current_step_index)
    (hlt : st.current_step_index + 1 < (swiggy_steps.length : Int))
    (hstep : swiggy_steps.get? (st.current_step_index + 1).toNat = some stepText) :
    (process_request σ sid user_input gen now).1.workflow_states sid
      = some { st with current_step_index := st.current_step_index + 1
                     , workflow_status := "active"
                     , waiting_for_verification := true
                     , last_updated := now } ∧
    pyIn stepText (process_request σ sid user_input gen now).2.content = true ∧
    (process_request σ sid user_input gen now).2.response_type
      = ResponseType.instruction := by
  have hpy : pyIndex swiggy_steps (st.current_step_index + 1) = some stepText := by
    rw [pyIndex_nonneg swiggy_steps _ (by omega)]; exact hstep
  have hnotle : ¬ ((swiggy_steps.length : Int) ≤ st.current_step_index + 1) := by
    omega
  have hpr : process_request σ sid user_input gen now
      = ((save_workflow_state σ sid
            { st with current_step_index := st.current_step_index + 1
                    , workflow_status := "active"
                    , waiting_for_verification := true } now).1,
         { session_id := sid, response_type := .instruction,
           content := step_content (st.current_step_index + 1 + 1)
             swiggy_steps.length stepText }) := by
    simp only [process_request, hload, handle_existing_workflow, hconf,
      if_true, handle_step_verification, habsent, getStepsField]
    rw [if_neg hnotle, hpy]
  rw [hpr]
  refine ⟨?_, pyIn_step_content _ _ _, rfl⟩
  simp [save_workflow_state]

/-- Witness for C8's amended theorem on the corrupt store: "done" advances
the corrupt record from index 1 to index 2 against the default catalog. -/
theorem missing_steps_fall_back_to_catalog_witness :
    (process_request corrupt_store "s1" "done" none 3).1.workflow_states "s1"
      = some { corrupt_state with current_step_index := 2
                                , workflow_status := "active"
                                , waiting_for_verification := true
                                , last_updated := 3 } ∧
    pyIn "Select a restaurant from the results"
      (process_request corrupt_store "s1" "done" none 3).2.content = true ∧
    (process_request corrupt_store "s1" "done" none 3).2.response_type
      = ResponseType.instruction := by
  exact missing_steps_fall_back_to_catalog corrupt_store "s1" "done"
    corrupt_state "Select a restaurant from the results" none 3
    (by decide) (by decide) (by decide) (by decide) (by decide) (by decide)

/-- C9: in every store reachable through agent turns and the management
endpoints, every stored workflow state has a genuine steps list and
`0 ≤ current_step_index < len(steps)`: the index starts at 0 on creation,
moves by exactly one per confirmation, and a state with
`index = len(steps)` is never persisted (completion deletes the record in
the same turn). -/
theorem reachable_states_in_bounds (σ : Store) (h : Reachable σ) :
    store_invariant σ := by
  induction h with
  | empty =>
      intro sid st hmem
      exact absurd hmem (by simp [emptyStore])
  | turn σ sid u gen now _ ih =>
      exact process_request_invariant σ sid u gen now ih
  | clear σ sid _ ih =>
      exact delete_workflow_state_invariant σ sid ih
  | escalate σ sid _ ih =>
      intro sid' st' hmem
      rw [mark_interruption_escalated_workflow_states] at hmem
      exact ih _ _ hmem

/-- Witness for C9: one turn from the empty store on a new-task request
yields a reachable store whose stored state (`demo_state 0`) satisfies the
bounds invariant. -/
theorem reachable_states_in_bounds_witness : state_in_bounds (demo_state 0) :=
  reachable_states_in_bounds _
    (Reachable.turn emptyStore "s1" "I want to order food" none 0
      Reachable.empty)
    "s1" (demo_state 0) (by decide)

/-- C10: saving an interruption overwrites whatever record existed, stores
it with `escalated = False` and the fresh timestamp, and an immediate read
returns exactly the just-saved record. -/
theorem save_then_get_interruption (σ : Store) (sid : String)
    (intr : InterruptionRecord) (now : Nat) :
    get_interruption (save_interruption σ sid intr now).1 sid
      = some { intr with timestamp := now, escalated := false } := by
  simp [get_interruption, save_interruption]
